import Mathlib

/-!
Verification of the client-side core of the pool trader repository.

The development shallowly embeds the Go source:

* the sidecar negotiation data model and the provider state machine
  (`SidecarPacket`, `stateStepProvider`, `resumeProviderPacket`);
* the recipient stream-id derivation (`deriveRecipientStreamID`);
* the sidecar acceptor registration path (`registerSidecar`);
* the client database sidecar namespace (`addSidecarWithBid`, `sidecars`);
* the on-chain account manager (`handleAccountConf`, `handleAccountSpend`,
  `handleAccountExpiry`, `closeAccount`, `validateAccountParams`,
  `initAccount`).

External collaborators (wallet, signer, auctioneer, chain notifier, store
transactions) are modelled as explicit result parameters, and uint32
arithmetic is modelled on Nat with an explicit reduction modulo 2 ^ 32.
Effectful steps return, next to their result, a trace of the externally
visible actions in the order the source performs them.
-/

/-- The sidecar ticket states, wire values 0 through 5. -/
inductive SidecarState
| created
| offered
| registered
| ordered
| expectingChannel
| completed
deriving DecidableEq, Repr

/-- Recipient block of a sidecar ticket.  The two public keys are modelled
by their 33-byte compressed serializations. -/
structure Recipient where
  nodePubKey : List Nat
  multiSigPubKey : List Nat
  multiSigKeyIndex : Nat
deriving DecidableEq, Repr

/-- Offer block of a sidecar ticket.  `signPubKey` is the compressed
serialization of the offering account key. -/
structure Offer where
  capacity : Nat
  pushAmt : Nat
  signPubKey : List Nat
  auto : Bool
deriving DecidableEq, Repr

/-- A sidecar ticket: 8-byte id, state, offer, optional recipient block and
optional order block (the bid nonce). -/
structure Ticket where
  id : List Nat
  state : SidecarState
  offer : Offer
  recipient : Option Recipient
  order : Option (List Nat)
deriving DecidableEq, Repr

/-- The packet threaded through an auto sidecar negotiator: the current
negotiator state together with the two sides of the ticket. -/
structure SidecarPacket where
  currentState : SidecarState
  receiverTicket : Ticket
  providerTicket : Ticket
deriving DecidableEq, Repr

/-- Two successive Go copy builtins into a zero-initialized array of size
`dst`: the first copy starts at offset 0, the second at the offset the
first one reached, each bounded by the space left; untouched bytes stay
zero. -/
def goCopyTwice (dst : Nat) (src1 src2 : List Nat) : List Nat :=
  src1.take dst ++ (src2.take (dst - (src1.take dst).length) ++
    List.replicate (dst - ((src1.take dst).length +
      (src2.take (dst - (src1.take dst).length)).length)) 0)

/-- The stream id of the cipher box the provider uses to reach the
receiver, as computed by `deriveRecipientStreamID` in the source: a 64-byte
array is filled by copying `Recipient.NodePubKey.SerializeCompressed()[1:]`
first and `Recipient.MultiSigPubKey.SerializeCompressed()[1:]` second, each
copy bounded by the space left in the destination, untouched bytes staying
zero (`goCopyTwice` mirrors the two Go copy builtins into the array). -/
def deriveRecipientStreamID (r : Recipient) : List Nat :=
  goCopyTwice 64 (r.nodePubKey.drop 1) (r.multiSigPubKey.drop 1)

/-- The recipient stream id as the specification words it: the node key
serialization with the leading parity byte dropped, followed by the
multisig key serialization with the leading parity byte dropped. -/
def recipientStreamIDSpec (r : Recipient) : List Nat :=
  r.nodePubKey.drop 1 ++ r.multiSigPubKey.drop 1

/-- C9: for a recipient whose two compressed keys have the serialized
length 33, the derived stream id is exactly the 32 x-coordinate bytes of
the node key followed by the 32 x-coordinate bytes of the multisig key,
64 bytes in total. -/
theorem deriveRecipientStreamID_matches_spec (r : Recipient)
    (hn : r.nodePubKey.length = 33) (hm : r.multiSigPubKey.length = 33) :
    deriveRecipientStreamID r = recipientStreamIDSpec r ∧
    (deriveRecipientStreamID r).length = 64 := by
  have hn32 : (r.nodePubKey.drop 1).length = 32 := by
    simp [List.length_drop, hn]
  have hm32 : (r.multiSigPubKey.drop 1).length = 32 := by
    simp [List.length_drop, hm]
  have h1 : (r.nodePubKey.drop 1).take 64 = r.nodePubKey.drop 1 :=
    List.take_of_length_le (by omega)
  have h2 : (r.multiSigPubKey.drop 1).take 32 = r.multiSigPubKey.drop 1 :=
    List.take_of_length_le (by omega)
  have key : deriveRecipientStreamID r
      = r.nodePubKey.drop 1 ++ r.multiSigPubKey.drop 1 := by
    unfold deriveRecipientStreamID goCopyTwice
    rw [h1, hn32]
    rw [show (64 : Nat) - 32 = 32 from rfl]
    rw [h2, hm32]
    rw [show (64 : Nat) - (32 + 32) = 0 from rfl]
    simp
  refine ⟨?_, ?_⟩
  · rw [key]
    rfl
  · rw [key]
    rw [List.length_append, hn32, hm32]

/-- A fixed 33-byte compressed-key serialization used as a test vector. -/
def pkA : List Nat := 2 :: List.replicate 32 1

/-- A second fixed 33-byte compressed-key serialization. -/
def pkB : List Nat := 3 :: List.replicate 32 4

/-- A concrete recipient block used as a test vector. -/
def recipientA : Recipient :=
  { nodePubKey := pkA, multiSigPubKey := pkB, multiSigKeyIndex := 7 }

/-- Witness for C9 at a concrete recipient. -/
theorem deriveRecipientStreamID_matches_spec_witness :
    recipientA.nodePubKey.length = 33 ∧
    recipientA.multiSigPubKey.length = 33 ∧
    (deriveRecipientStreamID recipientA = recipientStreamIDSpec recipientA ∧
      (deriveRecipientStreamID recipientA).length = 64) :=
  ⟨by decide, by decide,
    deriveRecipientStreamID_matches_spec recipientA (by decide) (by decide)⟩

/-- Externally visible effects of one provider FSM step, in the order the
source performs them: a mailbox send of a ticket, a checkpoint of a ticket
to the sidecar store (`SidecarDB.UpdateSidecar`), or the submission of the
sidecar bid order to the auctioneer. -/
inductive ProviderAction
| sendTicket (t : Ticket)
| checkpointTicket (t : Ticket)
| submitOrder (t : Ticket)
deriving DecidableEq, Repr

/-- Recognizer for mailbox sends in a provider trace. -/
def isSendAct : ProviderAction → Bool
| ProviderAction.sendTicket _ => true
| _ => false

/-- Recognizer for store checkpoints in a provider trace. -/
def isCheckpointAct : ProviderAction → Bool
| ProviderAction.checkpointTicket _ => true
| _ => false

/-- Index of the first mailbox send in a provider trace. -/
def firstSendIdx (tr : List ProviderAction) : Nat := tr.findIdx isSendAct

/-- Index of the first store checkpoint in a provider trace. -/
def firstCheckpointIdx (tr : List ProviderAction) : Nat :=
  tr.findIdx isCheckpointAct

/-- One step of the provider FSM (`stateStepProvider` in the source).  The
guards are tried in the order of the Go switch.  `submitted` stands for the
ticket returned by `submitSidecarOrder`, the one bound to the bid nonce;
the external sends, checkpoints and the order submission are taken to
succeed, and the trace records them in the order the source issues them. -/
def stateStepProvider (pkt : SidecarPacket) (submitted : Ticket) :
    Except String (SidecarPacket × List ProviderAction) :=
  if pkt.currentState = SidecarState.created ∧
      pkt.providerTicket.state = SidecarState.offered then
    Except.ok ({ currentState := SidecarState.offered,
                 receiverTicket := pkt.providerTicket,
                 providerTicket := pkt.receiverTicket },
               [ProviderAction.sendTicket pkt.providerTicket])
  else if pkt.currentState = SidecarState.offered ∧
      pkt.receiverTicket.state = SidecarState.registered then
    Except.ok ({ currentState := SidecarState.registered,
                 receiverTicket := pkt.receiverTicket,
                 providerTicket := pkt.receiverTicket },
               [ProviderAction.checkpointTicket pkt.receiverTicket])
  else if pkt.currentState = SidecarState.registered then
    Except.ok ({ currentState := SidecarState.ordered,
                 receiverTicket := submitted,
                 providerTicket := submitted },
               [ProviderAction.submitOrder pkt.providerTicket])
  else if (pkt.currentState = SidecarState.expectingChannel ∧
      pkt.receiverTicket.state = SidecarState.registered) ∨
      pkt.currentState = SidecarState.ordered then
    Except.ok ({ currentState := SidecarState.expectingChannel,
                 receiverTicket :=
                   { pkt.providerTicket with
                     state := SidecarState.expectingChannel },
                 providerTicket :=
                   { pkt.providerTicket with
                     state := SidecarState.expectingChannel } },
               [ProviderAction.sendTicket pkt.providerTicket,
                ProviderAction.checkpointTicket
                  { pkt.providerTicket with
                    state := SidecarState.expectingChannel }])
  else Except.error "unhandled provider state transition"

/-- A concrete offer used by the sidecar test vectors. -/
def offerA : Offer :=
  { capacity := 1000000, pushAmt := 200000, signPubKey := pkA, auto := true }

/-- A concrete ticket in the `Ordered` state. -/
def orderedTicket : Ticket :=
  { id := [1, 2, 3, 4, 5, 6, 7, 8], state := SidecarState.ordered,
    offer := offerA, recipient := some recipientA,
    order := some (List.replicate 32 9) }

/-- The provider packet right after the bid order was submitted. -/
def orderedPkt : SidecarPacket :=
  { currentState := SidecarState.ordered,
    receiverTicket := orderedTicket, providerTicket := orderedTicket }

/-- The result of the provider step at `orderedPkt`. -/
def orderedStepResult : SidecarPacket × List ProviderAction :=
  ({ currentState := SidecarState.expectingChannel,
     receiverTicket :=
       { orderedTicket with state := SidecarState.expectingChannel },
     providerTicket :=
       { orderedTicket with state := SidecarState.expectingChannel } },
   [ProviderAction.sendTicket orderedTicket,
    ProviderAction.checkpointTicket
      { orderedTicket with state := SidecarState.expectingChannel }])

/-- C1, counterexample: it is not the case that every provider step whose
trace both checkpoints and sends performs the checkpoint first.  In the
step out of `Ordered` the finalized ticket is sent on the recipient stream
before the `ExpectingChannel` ticket is written to the store. -/
theorem provider_checkpoint_before_send_refuted :
    ¬ (∀ (pkt : SidecarPacket) (sub : Ticket)
        (res : SidecarPacket × List ProviderAction),
        stateStepProvider pkt sub = Except.ok res →
        res.2.any isCheckpointAct = true → res.2.any isSendAct = true →
        firstCheckpointIdx res.2 < firstSendIdx res.2) := by
  intro h
  have h2 := h orderedPkt orderedTicket orderedStepResult rfl
    (by decide) (by decide)
  exact absurd h2 (by decide)

/-- C1, amended: whenever one provider FSM step both checkpoints a ticket
and sends one over the mailbox, the outgoing send happens before the store
update; this only occurs in the step into `ExpectingChannel`, whose trace
is exactly the send of the finalized ticket followed by the checkpoint of
that ticket stamped `ExpectingChannel`. -/
theorem provider_send_precedes_checkpoint (pkt : SidecarPacket)
    (sub : Ticket) (res : SidecarPacket × List ProviderAction)
    (hok : stateStepProvider pkt sub = Except.ok res)
    (hcp : res.2.any isCheckpointAct = true)
    (hsend : res.2.any isSendAct = true) :
    firstSendIdx res.2 < firstCheckpointIdx res.2 ∧
    res.2 = [ProviderAction.sendTicket pkt.providerTicket,
             ProviderAction.checkpointTicket
               { pkt.providerTicket with
                 state := SidecarState.expectingChannel }] ∧
    res.1.currentState = SidecarState.expectingChannel := by
  unfold stateStepProvider at hok
  split_ifs at hok with g1 g2 g3 g4
  · injection hok with h
    subst h
    simp [isCheckpointAct, isSendAct] at hcp
  · injection hok with h
    subst h
    simp [isCheckpointAct, isSendAct] at hsend
  · injection hok with h
    subst h
    simp [isCheckpointAct, isSendAct] at hcp
  · injection hok with h
    subst h
    refine ⟨?_, rfl, rfl⟩
    simp [firstSendIdx, firstCheckpointIdx, List.findIdx_cons, isSendAct,
      isCheckpointAct]

/-- Witness for the amended C1 at the concrete `Ordered` packet. -/
theorem provider_send_precedes_checkpoint_witness :
    stateStepProvider orderedPkt orderedTicket
        = Except.ok orderedStepResult ∧
    orderedStepResult.2.any isCheckpointAct = true ∧
    orderedStepResult.2.any isSendAct = true ∧
    firstSendIdx orderedStepResult.2 < firstCheckpointIdx orderedStepResult.2 :=
  ⟨rfl, by decide, by decide,
    (provider_send_precedes_checkpoint orderedPkt orderedTicket
      orderedStepResult rfl (by decide) (by decide)).1⟩

/-- The current state the acceptor gives a resumed provider negotiator
(`SidecarAcceptor.Start` in the source): the persisted ticket state, except
that a ticket still in `Offered` is demoted to `Created` to force a
retransmission of the initial offer. -/
def providerResumeState (s : SidecarState) : SidecarState :=
  if s = SidecarState.offered then SidecarState.created else s

/-- The starting packet the acceptor hands to `autoSidecarProvider` on
restart: the mapped current state together with the persisted ticket on
both sides, the ticket itself left unchanged. -/
def resumeProviderPacket (t : Ticket) : SidecarPacket :=
  { currentState := providerResumeState t.state,
    receiverTicket := t, providerTicket := t }

/-- A concrete persisted ticket in the `Registered` state. -/
def registeredTicket : Ticket :=
  { id := [1, 2, 3, 4, 5, 6, 7, 8], state := SidecarState.registered,
    offer := offerA, recipient := some recipientA, order := none }

/-- C2, counterexample: restarting the acceptor does not always start the
provider negotiator in `Created`; a ticket persisted in `Registered`
resumes with current state `Registered`. -/
theorem provider_restart_created_refuted :
    ¬ (∀ t : Ticket,
        (resumeProviderPacket t).currentState = SidecarState.created) := by
  intro h
  exact absurd (h registeredTicket) (by decide)

/-- C2, amended: on restart the provider negotiator starts in `Created`
exactly when the persisted ticket state is `Offered` (or already
`Created`); for every other persisted state the negotiator resumes in that
persisted state, and in all cases the persisted ticket itself is handed
over unchanged. -/
theorem provider_restart_state_mapping (t : Ticket) :
    ((resumeProviderPacket t).currentState = SidecarState.created ↔
      (t.state = SidecarState.offered ∨ t.state = SidecarState.created)) ∧
    (t.state ≠ SidecarState.offered →
      (resumeProviderPacket t).currentState = t.state) ∧
    (resumeProviderPacket t).providerTicket = t ∧
    (resumeProviderPacket t).receiverTicket = t := by
  rcases t with ⟨i, st, off, rec, ord⟩
  cases st <;>
    simp [resumeProviderPacket, providerResumeState]

/-- Witness for the amended C2 at a concrete `Registered` ticket. -/
theorem provider_restart_state_mapping_witness :
    (registeredTicket.state ≠ SidecarState.offered) ∧
    (resumeProviderPacket registeredTicket).currentState
      = registeredTicket.state :=
  ⟨by decide,
    (provider_restart_state_mapping registeredTicket).2.1 (by decide)⟩

/-- Outcome of the duplicate-check lookup `SidecarDB.Sidecar` performed by
`RegisterSidecar`: the ticket was found, the store returned its not-found
error `ErrNoSidecar`, or the read failed with some other error. -/
inductive SidecarLookup
| found (t : Ticket)
| errNoSidecar
| errOther (msg : String)
deriving DecidableEq, Repr

/-- The acceptor registration path (`SidecarAcceptor.RegisterSidecar` in
the source).  `verifyOk` is the outcome of the offer verification,
`lookup` the outcome of the duplicate-check lookup, `keyRes` the multisig
key derived by the wallet and `addRes` the outcome of the store insert.
The second component of the result is the ticket successfully stored, if
any. -/
def registerSidecar (verifyOk : Bool) (lookup : SidecarLookup)
    (keyRes : Except String (List Nat × Nat)) (nodeKey : List Nat)
    (addRes : Except String Unit) (t : Ticket) :
    Except String Ticket × Option Ticket :=
  if verifyOk = false then
    (Except.error "error verifying sidecar offer", none)
  else if lookup ≠ SidecarLookup.errNoSidecar then
    (Except.error "ticket already exists", none)
  else
    match keyRes with
    | Except.error _ => (Except.error "error deriving multisig key", none)
    | Except.ok (pk, idx) =>
      let t2 := { t with
        state := SidecarState.registered,
        recipient := some { nodePubKey := nodeKey,
                            multiSigPubKey := pk,
                            multiSigKeyIndex := idx } }
      match addRes with
      | Except.error _ => (Except.error "error storing sidecar", none)
      | Except.ok _ => (Except.ok t2, some t2)

/-- C10: `RegisterSidecar` stores a ticket (always in state `Registered`
and with a recipient block) only when the duplicate-check lookup returned
exactly the not-found error; any other lookup outcome, including a genuine
read failure, makes it fail with the ticket-already-exists error. -/
theorem registerSidecar_lookup_gate (verifyOk : Bool)
    (lookup : SidecarLookup) (keyRes : Except String (List Nat × Nat))
    (nodeKey : List Nat) (addRes : Except String Unit) (t : Ticket) :
    (∀ t2, (registerSidecar verifyOk lookup keyRes nodeKey addRes t).2
        = some t2 →
      lookup = SidecarLookup.errNoSidecar ∧
      t2.state = SidecarState.registered ∧ t2.recipient.isSome = true) ∧
    (verifyOk = true → lookup ≠ SidecarLookup.errNoSidecar →
      registerSidecar verifyOk lookup keyRes nodeKey addRes t
        = (Except.error "ticket already exists", none)) ∧
    (∀ msg, verifyOk = true → lookup = SidecarLookup.errOther msg →
      (registerSidecar verifyOk lookup keyRes nodeKey addRes t).1
        = Except.error "ticket already exists") := by
  refine ⟨?_, ?_, ?_⟩
  · intro t2 hstore
    unfold registerSidecar at hstore
    split_ifs at hstore with hv hl
    push_neg at hl
    refine ⟨hl, ?_⟩
    rcases keyRes with e | pk
    · simp at hstore
    · rcases addRes with e | u
      · simp at hstore
      · rcases pk with ⟨pk, idx⟩
        simp at hstore
        subst hstore
        simp
  · intro hv hl
    unfold registerSidecar
    rw [if_neg (by simp [hv]), if_pos hl]
  · intro msg hv hl
    unfold registerSidecar
    rw [if_neg (by simp [hv]), if_pos (by simp [hl])]

/-- Witness for C10: a transient read failure is reported as a duplicate
ticket, and nothing is stored. -/
theorem registerSidecar_lookup_gate_witness :
    registerSidecar true (SidecarLookup.errOther "connection lost")
        (Except.ok (pkB, 7)) pkA (Except.ok ()) registeredTicket
      = (Except.error "ticket already exists", none) :=
  (registerSidecar_lookup_gate true
    (SidecarLookup.errOther "connection lost") (Except.ok (pkB, 7)) pkA
    (Except.ok ()) registeredTicket).2.1 rfl (by decide)

/-- A value in the sidecars bucket of the client database: a serialized
sidecar ticket, a serialized bid-template record (opaque here since the
order serialization helpers are outside the sources; modelled from the
spec as a parallel bid record keyed by nonce), or a nested sub-bucket
mapping ticket keys to bid nonces.  In bbolt a `Get` or `ForEach` sees a
nested sub-bucket as a key with a nil value. -/
inductive BucketValue
| ticketRecord (t : Ticket)
| bidRecord (b : Nat)
| nestedIndex (ix : List (List Nat × List Nat))
deriving DecidableEq, Repr

/-- The sidecars bucket, an association list from byte keys to values,
kept in insertion order. -/
structure SidecarsBucket where
  entries : List (List Nat × BucketValue)
deriving DecidableEq, Repr

/-- The empty sidecars bucket. -/
def emptySidecarsBucket : SidecarsBucket := { entries := [] }

/-- Lookup of a key in the bucket, mirroring `bbolt.Bucket.Get`. -/
def bucketGet (b : SidecarsBucket) (k : List Nat) : Option BucketValue :=
  (b.entries.find? (fun e => decide (e.1 = k))).map (fun e => e.2)

/-- Store of a key in the bucket, mirroring `bbolt.Bucket.Put` together
with `CreateBucketIfNotExists` for nested values: an existing entry is
replaced in place, otherwise the entry is appended. -/
def bucketPut (b : SidecarsBucket) (k : List Nat) (v : BucketValue) :
    SidecarsBucket :=
  if b.entries.any (fun e => decide (e.1 = k)) then
    { entries := b.entries.map (fun e => if e.1 = k then (k, v) else e) }
  else
    { entries := b.entries ++ [(k, v)] }

/-- True when `Get` on the key returns a non-empty byte slice: leaf
records only, since bbolt returns nil for nested buckets. -/
def valueNonEmpty : Option BucketValue → Bool
| some (BucketValue.ticketRecord _) => true
| some (BucketValue.bidRecord _) => true
| _ => false

/-- The 41-byte sidecar ticket key from `getSidecarKey` in the source:
the 8-byte ticket id followed by the compressed offer signing key; a nil
signing key is rejected. -/
def getSidecarKey (t : Ticket) : Except String (List Nat) :=
  if t.offer.signPubKey = [] then
    Except.error "offer signing pubkey cannot be nil"
  else Except.ok (t.id ++ t.offer.signPubKey)

/-- The literal sub-bucket key `sidecar-nonce` (its ASCII bytes) used for
the ticket-key-to-bid-nonce index inside the sidecars bucket. -/
def sidecarNonceKey : List Nat :=
  [115, 105, 100, 101, 99, 97, 114, 45, 110, 111, 110, 99, 101]

/-- Deserialization of a bucket value read back as a sidecar ticket:
ticket records round-trip, a bid record fails to parse as a ticket and a
nested bucket reads as nil, which `readSidecar` reports as not found. -/
def readTicketValue : Option BucketValue → Except String Ticket
| some (BucketValue.ticketRecord t) => Except.ok t
| some (BucketValue.bidRecord _) =>
    Except.error "unable to deserialize ticket"
| _ => Except.error "no sidecar found"

/-- `DB.AddSidecarWithBid` from the source.  Both `sidecarBucket` and
`bidBucket` are obtained with `sidecarsBucketKey`, so the two handles are
one and the same bucket; the duplicate check looks at the ticket key, the
ticket is stored, the `sidecar-nonce` sub-bucket is created inside the
sidecars bucket and given the ticket-key-to-nonce entry, and the bid
template is stored under the nonce key of that same bucket. -/
def addSidecarWithBid (b : SidecarsBucket) (t : Ticket) (nonce : List Nat)
    (bidRec : Nat) : Except String SidecarsBucket :=
  match getSidecarKey t with
  | Except.error e => Except.error e
  | Except.ok key =>
    if valueNonEmpty (bucketGet b key) then
      Except.error "sidecar already exists"
    else
      let b1 := bucketPut b key (BucketValue.ticketRecord t)
      let ix :=
        match bucketGet b1 sidecarNonceKey with
        | some (BucketValue.nestedIndex ix) => ix
        | _ => []
      let ix2 :=
        if ix.any (fun e => decide (e.1 = key)) then
          ix.map (fun e => if e.1 = key then (key, nonce) else e)
        else ix ++ [(key, nonce)]
      let b2 := bucketPut b1 sidecarNonceKey (BucketValue.nestedIndex ix2)
      Except.ok (bucketPut b2 nonce (BucketValue.bidRecord bidRec))

/-- `DB.Sidecar` from the source: key construction followed by a read of
the single record. -/
def sidecarByKey (b : SidecarsBucket) (id pk : List Nat) :
    Except String Ticket :=
  if pk = [] then Except.error "offer signing pubkey cannot be nil"
  else readTicketValue (bucketGet b (id ++ pk))

/-- The `ForEach` loop of `DB.Sidecars`: a nested sub-bucket shows up with
a nil value and aborts the iteration with an error, any other record is
read back as a ticket. -/
def sidecarsLoop : List (List Nat × BucketValue) → Except String (List Ticket)
| [] => Except.ok []
| e :: rest =>
  match e.2 with
  | BucketValue.nestedIndex _ => Except.error "nil value for key"
  | BucketValue.bidRecord _ => Except.error "unable to deserialize ticket"
  | BucketValue.ticketRecord t =>
    match sidecarsLoop rest with
    | Except.error s => Except.error s
    | Except.ok ts => Except.ok (t :: ts)

/-- `DB.Sidecars` from the source: iterate every key of the sidecars
bucket and deserialize each value as a ticket. -/
def sidecars (b : SidecarsBucket) : Except String (List Ticket) :=
  sidecarsLoop b.entries

/-- The concrete bid nonce bound to `registeredTicket`. -/
def nonceA : List Nat := List.replicate 32 7

/-- The bucket obtained by adding `registeredTicket` with its bid to the
empty store. -/
def bucketAfterAdd : SidecarsBucket :=
  { entries :=
      [(registeredTicket.id ++ pkA, BucketValue.ticketRecord registeredTicket),
       (sidecarNonceKey,
        BucketValue.nestedIndex [(registeredTicket.id ++ pkA, nonceA)]),
       (nonceA, BucketValue.bidRecord 42)] }

/-- C3: `AddSidecarWithBid` succeeds and the ticket is individually
retrievable, but the very next `Sidecars` call fails, because the call
created the `sidecar-nonce` sub-bucket and the bid record inside the
sidecars bucket itself (the declared `side-bids` bucket is never used) and
the `Sidecars` iteration rejects the sub-bucket key it now encounters. -/
theorem addSidecarWithBid_breaks_sidecars :
    addSidecarWithBid emptySidecarsBucket registeredTicket nonceA 42
      = Except.ok bucketAfterAdd ∧
    sidecarByKey bucketAfterAdd registeredTicket.id pkA
      = Except.ok registeredTicket ∧
    bucketGet bucketAfterAdd nonceA = some (BucketValue.bidRecord 42) ∧
    sidecars bucketAfterAdd = Except.error "nil value for key" := by
  refine ⟨rfl, rfl, rfl, rfl⟩

/-- The on-chain account states. -/
inductive AccountState
| initiated
| pendingOpen
| opened
| expired
| pendingClosed
| closed
deriving DecidableEq, Repr

/-- Which script path a witness assembled for a close transaction takes. -/
inductive WitnessKind
| expiryW
| multisigW
deriving DecidableEq, Repr

/-- A transaction output: amount in satoshis and output script bytes. -/
structure TxOutD where
  value : Int
  pkScript : List Nat
deriving DecidableEq, Repr

/-- A transaction, with just the fields the account manager inspects:
version, lock time, spent outpoints, outputs, the witness kind assembled
on input 0, if any, and whether that witness carries an auctioneer
signature. -/
structure TxD where
  version : Nat
  lockTime : Nat
  txIns : List (Nat × Nat)
  txOuts : List TxOutD
  witnessKind : Option WitnessKind
  hasAuctioneerSig : Bool
deriving DecidableEq, Repr

/-- An account: amount, absolute expiry height (uint32), trader key
serialization, batch key (as a count of generator-point increments over
the initial key), state, funding outpoint and optional close transaction. -/
structure Account where
  value : Int
  expiry : Nat
  traderKey : List Nat
  batchKey : Nat
  state : AccountState
  outPoint : Nat × Nat
  closeTx : Option TxD
deriving DecidableEq, Repr

/-- Modelled from the spec: `clmscript.AccountWitnessScript` is a pure
function of the expiry, the trader key and the batch key (the auctioneer
key and shared secret are fixed per account and folded into the trader-key
field here); distinct batch keys give distinct scripts. -/
def accountScriptBytes (a : Account) : List Nat :=
  a.expiry :: a.batchKey :: a.traderKey

/-- `Account.NextOutputScript`, modelled from the spec: the witness script
recomputed with the batch key advanced by one generator-point increment. -/
def nextOutputScriptBytes (a : Account) : List Nat :=
  a.expiry :: (a.batchKey + 1) :: a.traderKey

/-- Modelled from the spec: `clmscript.LocateOutputScript` scans the
outputs of a transaction for the given script and returns the first
matching index. -/
def locateOutputScript (tx : TxD) (script : List Nat) : Option Nat :=
  tx.txOuts.findIdx? (fun o => decide (o.pkScript = script))

/-- Modelled from the spec: the classification of a spending witness by
`clmscript.IsExpirySpend` and `clmscript.IsMultiSigSpend`; the two
structural shapes are disjoint, anything else is unknown. -/
inductive WitnessClass
| expiryPath
| multisigPath
| unknownPath
deriving DecidableEq, Repr

/-- `Manager.handleAccountConf` from the source, after a successful store
lookup: a confirmation arriving at the expiry height is ignored so the
expiry handler wins, a confirmation of an account no longer in
`PendingOpen` is ignored, and otherwise the account moves to `Open`.  The
result is the persisted account. -/
def handleAccountConf (a : Account) (confHeight : Nat) : Account :=
  if confHeight = a.expiry then a
  else if a.state ≠ AccountState.pendingOpen then a
  else { a with state := AccountState.opened }

/-- `Manager.handleAccountExpiry` from the source, after a successful
store lookup: an account already closed or closing stays put, any other
account moves to `Expired`. -/
def handleAccountExpiry (a : Account) : Account :=
  if a.state = AccountState.pendingClosed ∨ a.state = AccountState.closed
  then a
  else { a with state := AccountState.expired }

/-- C5: a confirmation firing at exactly the expiry height leaves a
`PendingOpen` account untouched (in particular it is not moved to
`Open`), and the expiry event handled afterwards puts the account in
`Expired`. -/
theorem conf_at_expiry_height_yields_expired (a : Account)
    (h : a.state = AccountState.pendingOpen) :
    handleAccountConf a a.expiry = a ∧
    (handleAccountExpiry (handleAccountConf a a.expiry)).state
      = AccountState.expired := by
  have hconf : handleAccountConf a a.expiry = a := by
    unfold handleAccountConf
    rw [if_pos rfl]
  refine ⟨hconf, ?_⟩
  rw [hconf]
  unfold handleAccountExpiry
  rw [if_neg (by rw [h]; intro hc; rcases hc with hc | hc <;> cases hc)]

/-- A concrete account in `PendingOpen` awaiting its funding
confirmation. -/
def pendingAccount : Account :=
  { value := 500000, expiry := 700996, traderKey := pkA, batchKey := 0,
    state := AccountState.pendingOpen, outPoint := (77, 0),
    closeTx := none }

/-- Witness for C5 at a concrete `PendingOpen` account. -/
theorem conf_at_expiry_height_yields_expired_witness :
    pendingAccount.state = AccountState.pendingOpen ∧
    (handleAccountConf pendingAccount pendingAccount.expiry
        = pendingAccount ∧
      (handleAccountExpiry
        (handleAccountConf pendingAccount pendingAccount.expiry)).state
        = AccountState.expired) :=
  ⟨by decide,
    conf_at_expiry_height_yields_expired pendingAccount (by decide)⟩

/-- `Manager.handleAccountSpend` from the source, after a successful
store lookup.  `w` is the classification of the witness on the spending
input.  The first component is the handler outcome, the second the
persisted account. -/
def handleAccountSpend (a : Account) (w : WitnessClass) (spendTx : TxD) :
    Except String Unit × Account :=
  match w with
  | WitnessClass.expiryPath =>
    (Except.ok (),
     { a with state := AccountState.closed, closeTx := some spendTx })
  | WitnessClass.multisigPath =>
    match locateOutputScript spendTx (nextOutputScriptBytes a) with
    | some _ => (Except.ok (), a)
    | none =>
      (Except.ok (),
       { a with state := AccountState.closed, closeTx := some spendTx })
  | WitnessClass.unknownPath =>
    (Except.error "unknown spend witness", a)

/-- C6: an expiry-path spend closes the account with the spending
transaction recorded; a multisig-path spend whose transaction recreates
the account under the next output script leaves the account untouched; a
multisig-path spend without such an output closes the account with the
spending transaction; an unknown witness fails and changes nothing. -/
theorem handleAccountSpend_classification (a : Account) (tx : TxD) :
    handleAccountSpend a WitnessClass.expiryPath tx
      = (Except.ok (),
         { a with state := AccountState.closed, closeTx := some tx }) ∧
    ((∃ o ∈ tx.txOuts, o.pkScript = nextOutputScriptBytes a) →
      handleAccountSpend a WitnessClass.multisigPath tx
        = (Except.ok (), a)) ∧
    ((¬ ∃ o ∈ tx.txOuts, o.pkScript = nextOutputScriptBytes a) →
      handleAccountSpend a WitnessClass.multisigPath tx
        = (Except.ok (),
           { a with state := AccountState.closed, closeTx := some tx })) ∧
    ((handleAccountSpend a WitnessClass.unknownPath tx).1
        = Except.error "unknown spend witness" ∧
      (handleAccountSpend a WitnessClass.unknownPath tx).2 = a) := by
  have hloc : locateOutputScript tx (nextOutputScriptBytes a) = none ↔
      ¬ ∃ o ∈ tx.txOuts, o.pkScript = nextOutputScriptBytes a := by
    unfold locateOutputScript
    rw [List.findIdx?_eq_none_iff]
    constructor
    · intro hall hex
      rcases hex with ⟨o, ho, hs⟩
      have := hall o ho
      simp [hs] at this
    · intro hnone o ho
      simp only [decide_eq_false_iff_not]
      intro hs
      exact hnone ⟨o, ho, hs⟩
  refine ⟨rfl, ?_, ?_, ⟨rfl, rfl⟩⟩
  · intro hex
    unfold handleAccountSpend
    rcases hcase : locateOutputScript tx (nextOutputScriptBytes a) with _ | i
    · exact absurd (hloc.mp hcase) (by simpa using hex)
    · simp [hcase]
  · intro hnone
    unfold handleAccountSpend
    rw [hloc.mpr hnone]

/-- A multisig spend transaction recreating `pendingAccount` under its
next output script. -/
def recreatingSpendTx : TxD :=
  { version := 2, lockTime := 0, txIns := [(77, 0)],
    txOuts := [{ value := 500000,
                 pkScript := nextOutputScriptBytes pendingAccount }],
    witnessKind := some WitnessKind.multisigW, hasAuctioneerSig := true }

/-- Witness for C6 at a concrete account and batch spend transaction. -/
theorem handleAccountSpend_classification_witness :
    (∃ o ∈ recreatingSpendTx.txOuts,
        o.pkScript = nextOutputScriptBytes pendingAccount) ∧
    handleAccountSpend pendingAccount WitnessClass.multisigPath
        recreatingSpendTx = (Except.ok (), pendingAccount) :=
  ⟨⟨{ value := 500000,
      pkScript := nextOutputScriptBytes pendingAccount }, by decide⟩,
    (handleAccountSpend_classification pendingAccount
        recreatingSpendTx).2.1
      ⟨{ value := 500000,
         pkScript := nextOutputScriptBytes pendingAccount }, by decide⟩⟩

/-- Witness weight fee, modelled from the spec: the close fee is the floor
fee rate applied to the estimated weight of the chosen witness type; only
its dependence on the witness kind matters here. -/
def feeForWitness : WitnessKind → Int
| WitnessKind.expiryW => 141
| WitnessKind.multisigW => 153

/-- Results of the external calls `Manager.CloseAccount` makes, in source
order: the wallet next-address script, the trader signature from the
signer, the auctioneer counter-signature, the sanity check of the built
transaction, the store update and the final publication. -/
structure CloseExterns where
  nextAddrScript : Except Unit (List Nat)
  traderSig : Except Unit Nat
  auctioneerSig : Except Unit Nat
  sanityOk : Bool
  storeUpdate : Except Unit Unit
  publish : Except Unit Unit
deriving Repr

/-- `Manager.toWalletOutput` from the source: a wallet-controlled output
worth the account value minus the fee for the witness weight. -/
def toWalletOutput (a : Account) (k : WitnessKind)
    (addrScript : List Nat) : TxOutD :=
  { value := a.value - feeForWitness k, pkScript := addrScript }

/-- `Manager.createCloseTx` from the source: defaults the outputs to a
single wallet output when the caller passed none, then builds a version-2
transaction with the given lock time, one input spending the account
outpoint and the chosen outputs, and obtains the trader signature. -/
def createCloseTx (a : Account) (k : WitnessKind)
    (closeOutputs : List TxOutD) (lockTime : Nat) (ext : CloseExterns) :
    Except Unit TxD :=
  match (if closeOutputs.isEmpty then
      (ext.nextAddrScript.map (fun s => [toWalletOutput a k s]))
    else Except.ok closeOutputs) with
  | Except.error e => Except.error e
  | Except.ok outs =>
    match ext.traderSig with
    | Except.error e => Except.error e
    | Except.ok _ =>
      Except.ok { version := 2, lockTime := lockTime,
                  txIns := [a.outPoint], txOuts := outs,
                  witnessKind := none, hasAuctioneerSig := false }

/-- `Manager.closeAccountExpiry` from the source: expiry-path close with
the best height as lock time and the expiry witness assembled. -/
def closeAccountExpiry (a : Account) (closeOutputs : List TxOutD)
    (bestHeight : Nat) (ext : CloseExterns) : Except Unit TxD :=
  match createCloseTx a WitnessKind.expiryW closeOutputs bestHeight ext with
  | Except.error e => Except.error e
  | Except.ok tx =>
    Except.ok { tx with witnessKind := some WitnessKind.expiryW }

/-- `Manager.closeAccountMultiSig` from the source: multisig-path close
with lock time 0, requiring the auctioneer counter-signature before the
witness is assembled. -/
def closeAccountMultiSig (a : Account) (closeOutputs : List TxOutD)
    (ext : CloseExterns) : Except Unit TxD :=
  match createCloseTx a WitnessKind.multisigW closeOutputs 0 ext with
  | Except.error e => Except.error e
  | Except.ok tx =>
    match ext.auctioneerSig with
    | Except.error e => Except.error e
    | Except.ok _ =>
      Except.ok { tx with witnessKind := some WitnessKind.multisigW,
                          hasAuctioneerSig := true }

/-- `Manager.CloseAccount` from the source, after a successful store
lookup of the account: reject already-closed accounts, choose the expiry
path exactly when the account is `Expired` or the best height reached the
expiry, run the sanity check, persist `(PendingClosed, closeTx)` and only
then publish.  The second component is the persisted account. -/
def closeAccount (a : Account) (closeOutputs : List TxOutD)
    (bestHeight : Nat) (ext : CloseExterns) : Except String TxD × Account :=
  if a.state = AccountState.pendingClosed ∨ a.state = AccountState.closed
  then (Except.error "account has already been closed", a)
  else
    match (if a.state = AccountState.expired ∨ a.expiry ≤ bestHeight then
        closeAccountExpiry a closeOutputs bestHeight ext
      else closeAccountMultiSig a closeOutputs ext) with
    | Except.error _ => (Except.error "unable to create close tx", a)
    | Except.ok tx =>
      if ext.sanityOk = false then
        (Except.error "transaction failed sanity check", a)
      else
        match ext.storeUpdate with
        | Except.error _ => (Except.error "unable to update account", a)
        | Except.ok _ =>
          match ext.publish with
          | Except.error _ =>
            (Except.error "unable to publish close tx",
             { a with state := AccountState.pendingClosed,
                      closeTx := some tx })
          | Except.ok _ =>
            (Except.ok tx,
             { a with state := AccountState.pendingClosed,
                      closeTx := some tx })

/-- True when a call result is the error case. -/
def exceptIsErr {α β : Type} : Except α β → Bool
| Except.error _ => true
| Except.ok _ => false

/-- With the trader signature unavailable, `createCloseTx` fails no matter
which path or outputs were chosen. -/
theorem createCloseTx_traderSig_error (a : Account) (k : WitnessKind)
    (outs : List TxOutD) (lt : Nat) (ext : CloseExterns)
    (hts : ext.traderSig = Except.error ()) :
    createCloseTx a k outs lt ext = Except.error () := by
  unfold createCloseTx
  rcases hsc : (if outs.isEmpty then
      (ext.nextAddrScript.map (fun s => [toWalletOutput a k s]))
    else Except.ok outs) with e | os
  · cases e
    rfl
  · rw [hts]

/-- With the wallet, signer, auctioneer, sanity check, store and
publication all succeeding, `createCloseTx` builds the version-2 skeleton
spending the account outpoint with the requested lock time. -/
theorem createCloseTx_ok (a : Account) (k : WitnessKind)
    (outs : List TxOutD) (lt : Nat) (ext : CloseExterns) (addr : List Nat)
    (hna : ext.nextAddrScript = Except.ok addr) (sg : Nat)
    (hts : ext.traderSig = Except.ok sg) :
    ∃ os, createCloseTx a k outs lt ext
      = Except.ok { version := 2, lockTime := lt, txIns := [a.outPoint],
                    txOuts := os, witnessKind := none,
                    hasAuctioneerSig := false } := by
  by_cases he : outs.isEmpty
  · refine ⟨[toWalletOutput a k addr], ?_⟩
    unfold createCloseTx
    rw [if_pos he, hna, hts]
    rfl
  · refine ⟨outs, ?_⟩
    unfold createCloseTx
    rw [if_neg he, hts]

/-- C7: with every external call succeeding, `CloseAccount` fails exactly
when the account is already `PendingClosed` or `Closed`; otherwise the
built transaction is version 2, spends the account outpoint, takes the
expiry path with lock time `bestHeight` and no auctioneer signature
exactly when the account is `Expired` or the best height reached the
expiry, and otherwise takes the multisig path with lock time 0 and an
auctioneer signature. -/
theorem closeAccount_path_selection (a : Account) (outs : List TxOutD)
    (h : Nat) (ext : CloseExterns) (addr : List Nat)
    (hna : ext.nextAddrScript = Except.ok addr) (sg : Nat)
    (hts : ext.traderSig = Except.ok sg) (ag : Nat)
    (hag : ext.auctioneerSig = Except.ok ag) (hsan : ext.sanityOk = true)
    (hsu : ext.storeUpdate = Except.ok ())
    (hp : ext.publish = Except.ok ()) :
    (exceptIsErr (closeAccount a outs h ext).1 = true ↔
      (a.state = AccountState.pendingClosed ∨
        a.state = AccountState.closed)) ∧
    (∀ tx, (closeAccount a outs h ext).1 = Except.ok tx →
      tx.version = 2 ∧ tx.txIns = [a.outPoint] ∧
      ((a.state = AccountState.expired ∨ a.expiry ≤ h) →
        tx.witnessKind = some WitnessKind.expiryW ∧ tx.lockTime = h ∧
        tx.hasAuctioneerSig = false) ∧
      (¬ (a.state = AccountState.expired ∨ a.expiry ≤ h) →
        tx.witnessKind = some WitnessKind.multisigW ∧ tx.lockTime = 0 ∧
        tx.hasAuctioneerSig = true)) := by
  obtain ⟨os1, h1⟩ := createCloseTx_ok a WitnessKind.expiryW outs h ext
    addr hna sg hts
  obtain ⟨os2, h2⟩ := createCloseTx_ok a WitnessKind.multisigW outs 0 ext
    addr hna sg hts
  have hexp : closeAccountExpiry a outs h ext
      = Except.ok { version := 2, lockTime := h, txIns := [a.outPoint],
                    txOuts := os1,
                    witnessKind := some WitnessKind.expiryW,
                    hasAuctioneerSig := false } := by
    unfold closeAccountExpiry
    rw [h1]
  have hms : closeAccountMultiSig a outs ext
      = Except.ok { version := 2, lockTime := 0, txIns := [a.outPoint],
                    txOuts := os2,
                    witnessKind := some WitnessKind.multisigW,
                    hasAuctioneerSig := true } := by
    unfold closeAccountMultiSig
    rw [h2, hag]
  by_cases hclosed : a.state = AccountState.pendingClosed ∨
      a.state = AccountState.closed
  · unfold closeAccount
    rw [if_pos hclosed]
    refine ⟨by simpa [exceptIsErr] using hclosed, ?_⟩
    intro tx htx
    simp at htx
  · unfold closeAccount
    rw [if_neg hclosed]
    by_cases hpath : a.state = AccountState.expired ∨ a.expiry ≤ h
    · rw [if_pos hpath, hexp, hsan, hsu, hp]
      refine ⟨by simpa [exceptIsErr] using hclosed, ?_⟩
      intro tx htx
      simp at htx
      subst htx
      refine ⟨rfl, rfl, fun _ => ⟨rfl, rfl, rfl⟩, fun hc => absurd hpath hc⟩
    · rw [if_neg hpath, hms, hsan, hsu, hp]
      refine ⟨by simpa [exceptIsErr] using hclosed, ?_⟩
      intro tx htx
      simp at htx
      subst htx
      refine ⟨rfl, rfl, fun hc => absurd hc hpath,
        fun _ => ⟨rfl, rfl, rfl⟩⟩

/-- A concrete `Open` account used by the close-path test vectors. -/
def openAccount : Account :=
  { value := 500000, expiry := 1000, traderKey := pkA, batchKey := 1,
    state := AccountState.opened, outPoint := (55, 1), closeTx := none }

/-- External results with every call succeeding. -/
def externsOk : CloseExterns :=
  { nextAddrScript := Except.ok [0, 20, 9], traderSig := Except.ok 1,
    auctioneerSig := Except.ok 2, sanityOk := true,
    storeUpdate := Except.ok (), publish := Except.ok () }

/-- Witness for C7 at a concrete open account before expiry. -/
theorem closeAccount_path_selection_witness :
    externsOk.nextAddrScript = Except.ok [0, 20, 9] ∧
    externsOk.traderSig = Except.ok 1 ∧
    externsOk.auctioneerSig = Except.ok 2 ∧
    externsOk.sanityOk = true ∧
    externsOk.storeUpdate = Except.ok () ∧
    externsOk.publish = Except.ok () ∧
    (exceptIsErr (closeAccount openAccount [] 500 externsOk).1 = true ↔
      (openAccount.state = AccountState.pendingClosed ∨
        openAccount.state = AccountState.closed)) :=
  ⟨rfl, rfl, rfl, rfl, rfl, rfl,
    (closeAccount_path_selection openAccount [] 500 externsOk [0, 20, 9]
      rfl 1 rfl 2 rfl rfl rfl rfl).1⟩

/-- External results in which only the final publication fails. -/
def externsPublishFail : CloseExterns :=
  { nextAddrScript := Except.ok [0, 20, 9], traderSig := Except.ok 1,
    auctioneerSig := Except.ok 2, sanityOk := true,
    storeUpdate := Except.ok (), publish := Except.error () }

/-- C4, counterexample: when the final publication fails the error is
surfaced, but the account has already been persisted as `PendingClosed`
with its close transaction set, so the persisted state is not untouched. -/
theorem closeAccount_publish_failure_mutates :
    exceptIsErr (closeAccount openAccount [] 500 externsPublishFail).1
      = true ∧
    (closeAccount openAccount [] 500 externsPublishFail).2.state
      = AccountState.pendingClosed ∧
    (closeAccount openAccount [] 500 externsPublishFail).2.closeTx.isSome
      = true ∧
    openAccount.state = AccountState.opened := by
  refine ⟨rfl, rfl, rfl, rfl⟩

/-- C4, amended: every failure of `CloseAccount` is surfaced, and every
failure other than the final publication leaves the persisted account
untouched; a publication failure alone finds the account already persisted
as `(PendingClosed, closeTx)`.  A failing trader-signature call in
particular errors out with the account untouched. -/
theorem closeAccount_failure_leaves_state (a : Account)
    (outs : List TxOutD) (h : Nat) (ext : CloseExterns) :
    (exceptIsErr (closeAccount a outs h ext).1 = true →
      ((closeAccount a outs h ext).2 = a ∨
        (ext.publish = Except.error () ∧
         (closeAccount a outs h ext).2.state
           = AccountState.pendingClosed ∧
         (closeAccount a outs h ext).2.closeTx.isSome = true))) ∧
    (ext.traderSig = Except.error () →
      exceptIsErr (closeAccount a outs h ext).1 = true ∧
      (closeAccount a outs h ext).2 = a) := by
  constructor
  · intro hfail
    unfold closeAccount at hfail ⊢
    by_cases hclosed : a.state = AccountState.pendingClosed ∨
        a.state = AccountState.closed
    · rw [if_pos hclosed] at hfail ⊢
      exact Or.inl rfl
    · rw [if_neg hclosed] at hfail ⊢
      rcases hch : (if a.state = AccountState.expired ∨ a.expiry ≤ h then
          closeAccountExpiry a outs h ext
        else closeAccountMultiSig a outs ext) with e | tx
      · exact Or.inl rfl
      · by_cases hsan : ext.sanityOk = false
        · rw [hsan] at hfail ⊢
          exact Or.inl rfl
        · have hsan2 : ext.sanityOk = true := by
            revert hsan
            cases ext.sanityOk <;> simp
          rw [hsan2] at hfail ⊢
          rcases hsu : ext.storeUpdate with e | u
          · exact Or.inl rfl
          · rcases hpub : ext.publish with e | u
            · cases e
              exact Or.inr ⟨rfl, rfl, rfl⟩
            · rw [hch, hsu, hpub] at hfail
              simp [exceptIsErr] at hfail
  · intro hts
    have hexp := createCloseTx_traderSig_error a WitnessKind.expiryW outs
      h ext hts
    have hms := createCloseTx_traderSig_error a WitnessKind.multisigW outs
      0 ext hts
    have hexp2 : closeAccountExpiry a outs h ext = Except.error () := by
      unfold closeAccountExpiry
      rw [hexp]
    have hms2 : closeAccountMultiSig a outs ext = Except.error () := by
      unfold closeAccountMultiSig
      rw [hms]
    unfold closeAccount
    by_cases hclosed : a.state = AccountState.pendingClosed ∨
        a.state = AccountState.closed
    · rw [if_pos hclosed]
      exact ⟨rfl, rfl⟩
    · rw [if_neg hclosed]
      by_cases hpath : a.state = AccountState.expired ∨ a.expiry ≤ h
      · rw [if_pos hpath, hexp2]
        exact ⟨rfl, rfl⟩
      · rw [if_neg hpath, hms2]
        exact ⟨rfl, rfl⟩

/-- Witness for the amended C4 at the concrete publication failure. -/
theorem closeAccount_failure_leaves_state_witness :
    exceptIsErr (closeAccount openAccount [] 500 externsPublishFail).1
      = true ∧
    ((closeAccount openAccount [] 500 externsPublishFail).2 = openAccount ∨
      (externsPublishFail.publish = Except.error () ∧
       (closeAccount openAccount [] 500 externsPublishFail).2.state
         = AccountState.pendingClosed ∧
       (closeAccount openAccount [] 500 externsPublishFail).2.closeTx.isSome
         = true)) :=
  ⟨rfl, (closeAccount_failure_leaves_state openAccount [] 500
    externsPublishFail).1 rfl⟩

/-- Reduction modulo 2 ^ 32, the semantics of Go uint32 addition. -/
def u32 (n : Nat) : Nat := n % 4294967296

/-- `validateAccountParams` from the source: the account value must lie in
`[100000, 100000 + 2 ^ 24 - 1]` satoshis and the expiry within
`[bestHeight + 144, bestHeight + 144 * 365]`, both bounds computed with
uint32 addition. -/
def validateAccountParams (value : Int) (expiry bestHeight : Nat) :
    Option String :=
  if value < 100000 then some "minimum account value" else
  if value > 16877215 then some "maximum account value" else
  if expiry < u32 (bestHeight + 144) then some "minimum account expiry" else
  if expiry > u32 (bestHeight + 52560) then some "maximum account expiry"
  else none

/-- The external calls of `Manager.InitAccount`, in source order after a
successful parameter validation: key derivation, account reservation with
the auctioneer, shared-secret derivation, the persist of the `Initiated`
record and the resume that funds the account. -/
inductive InitAction
| deriveKey
| reserveAccount
| deriveSharedKey
| persistAccount
| resumeAccount
deriving DecidableEq, Repr

/-- `Manager.InitAccount` from the source, with the external calls taken
to succeed: failed validation returns the error before anything is
persisted or any external call is made; otherwise the calls proceed in
source order. -/
def initAccount (value : Int) (expiry bestHeight : Nat) :
    Except String Unit × List InitAction :=
  match validateAccountParams value expiry bestHeight with
  | some e => (Except.error e, [])
  | none =>
    (Except.ok (),
     [InitAction.deriveKey, InitAction.reserveAccount,
      InitAction.deriveSharedKey, InitAction.persistAccount,
      InitAction.resumeAccount])

/-- C8, counterexample: at `bestHeight = 2 ^ 32 - 1` the uint32 sum
`bestHeight + 144` wraps around, so an expiry far below the claimed lower
bound `bestHeight + 144` passes validation: `initAccount` succeeds and
proceeds to its external calls instead of returning the parameter
error. -/
theorem initAccount_wraparound_refuted :
    (initAccount 100000 200 4294967295).1 = Except.ok () ∧
    (200 : Nat) < 4294967295 + 144 ∧
    (initAccount 100000 200 4294967295).2 ≠ [] := by
  refine ⟨rfl, by norm_num, by decide⟩

/-- C8, amended: `initAccount` fails, makes no external call and persists
nothing exactly when the value lies outside
`[100000, 100000 + 2 ^ 24 - 1]` or the expiry lies outside the window
`[u32 (bestHeight + 144), u32 (bestHeight + 144 * 365)]` whose bounds are
computed with uint32 wraparound; whenever `bestHeight + 144 * 365` does
not overflow, this coincides with the plain bounds the claim states. -/
theorem initAccount_validation_bounds (value : Int) (expiry best : Nat) :
    ((exceptIsErr (initAccount value expiry best).1 = true) ↔
      (value < 100000 ∨ value > 16877215 ∨
        expiry < u32 (best + 144) ∨ expiry > u32 (best + 52560))) ∧
    (exceptIsErr (initAccount value expiry best).1 = true →
      (initAccount value expiry best).2 = []) ∧
    (best + 52560 < 4294967296 →
      ((exceptIsErr (initAccount value expiry best).1 = true) ↔
        (value < 100000 ∨ value > 16877215 ∨
          expiry < best + 144 ∨ expiry > best + 52560))) := by
  have main : (exceptIsErr (initAccount value expiry best).1 = true) ↔
      (value < 100000 ∨ value > 16877215 ∨
        expiry < u32 (best + 144) ∨ expiry > u32 (best + 52560)) := by
    unfold initAccount validateAccountParams
    split_ifs <;> simp_all [exceptIsErr]
  have noact : exceptIsErr (initAccount value expiry best).1 = true →
      (initAccount value expiry best).2 = [] := by
    intro hfail
    unfold initAccount at hfail ⊢
    rcases hv : validateAccountParams value expiry best with _ | e
    · rw [hv] at hfail
      simp [exceptIsErr] at hfail
    · rfl
  refine ⟨main, noact, ?_⟩
  intro hnowrap
  have e1 : u32 (best + 144) = best + 144 :=
    Nat.mod_eq_of_lt (by omega)
  have e2 : u32 (best + 52560) = best + 52560 :=
    Nat.mod_eq_of_lt (by omega)
  rw [e1, e2] at main
  exact main

/-- Witness for the amended C8 at parameters far from the wraparound. -/
theorem initAccount_validation_bounds_witness :
    (700000 + 52560 < 4294967296) ∧
    ((exceptIsErr (initAccount 50000 700144 700000).1 = true) ↔
      ((50000 : Int) < 100000 ∨ (50000 : Int) > 16877215 ∨
        700144 < 700000 + 144 ∨ 700144 > 700000 + 52560)) :=
  ⟨by norm_num,
    (initAccount_validation_bounds 50000 700144 700000).2.2 (by norm_num)⟩
